import Mathlib

/-!
Shallow embedding of the contact-form submission flow of `assets/js/main.js`
(the single client-side script of the modu-web-page repository).

The script is event-driven JavaScript over the DOM.  The embedding models:
  * the JS object built by `collectFormData` as a finite lookup function
    `String → Option String` (a missing key is JS `undefined`, i.e. `none`);
  * `validateFormData`, the email regular expression, `sendContactForm`
    and the submit handler as pure functions;
  * the DOM / network effects of one submission as a trace of events
    (`Ev`), so that "no network call is made", "the form is reset",
    "the button is re-enabled" are properties of the trace;
  * the environment (how the `fetch` promise would settle, and when) as a
    `FetchBehavior` value supplied to the handler, mirroring the
    `Promise.race([fetchPromise, timeoutPromise])` in `sendContactForm`.
-/

namespace ModuWeb

/-! ### Configuration (`CONFIG` object, main.js lines 2-10) -/

def API_BASE_URL : String := "http://localhost:8080/api"

def CONTACT_ENDPOINT : String := "/contact"

def CORS_MODE : String := "cors"

/-- `CONFIG.REQUEST_TIMEOUT`, in milliseconds. -/
def REQUEST_TIMEOUT : Nat := 10000

/-! ### JS helpers

`jsFalsy o` models the truthiness test `!x` on a value that is either a
string or `undefined`: `undefined` and the empty string are the falsy cases.
`jsOrOpt` models `x || d` for such a value, `jsOrStr` models `s || d` for a
definite string. -/

def jsFalsy : Option String → Bool
  | none => true
  | some s => s == ""

def jsOrOpt (o : Option String) (d : String) : String :=
  match o with
  | none => d
  | some s => if s == "" then d else s

def jsOrStr (s d : String) : String :=
  if s == "" then d else s

/-- Substring test on lists of characters: does `hay` start with `needle`? -/
def leadsWith : List Char → List Char → Bool
  | [], _ => true
  | _ :: _, [] => false
  | a :: as, b :: bs => a == b && leadsWith as bs

/-- Does `needle` occur contiguously inside `hay`? -/
def occursIn (needle : List Char) : List Char → Bool
  | [] => needle.isEmpty
  | c :: t => leadsWith needle (c :: t) || occursIn needle t

/-- JS `hay.includes(needle)` on strings. -/
def jsIncludes (hay needle : String) : Bool :=
  occursIn needle.toList hay.toList

/-! ### The email regular expression

main.js line 152: `const emailRegex = /^[^\s@]+@[^\s@]+\.[^\s@]+$/;`.
`jsWhitespace` is the character class `\s` of ECMAScript regular
expressions; `emailCharOk` is the class `[^\s@]`. -/

def jsWhitespace (c : Char) : Bool :=
  c == '\t' || c == '\n' || c == '\u000B' || c == '\u000C' || c == '\r' ||
  c == ' ' || c == '\u00A0' || c == '\u1680' ||
  ('\u2000' ≤ c && c ≤ '\u200A') ||
  c == '\u2028' || c == '\u2029' || c == '\u202F' || c == '\u205F' ||
  c == '\u3000' || c == '\uFEFF'

def emailCharOk (c : Char) : Bool :=
  !jsWhitespace c && c != '@'

/-- Does the list have a `'.'` that is neither its first nor its last
element?  This is what `[^\s@]+\.[^\s@]+` demands of the part after `@`,
once every character of that part is already known to be in `[^\s@]`. -/
def hasInteriorDot (l : List Char) : Bool :=
  ((l.drop 1).dropLast).contains '.'

/-- `emailRegex.test s`.  The regex anchors at both ends and no character
class of it accepts `'@'`, so a match must split `s` at its unique `'@'`:
a non-empty local part of `[^\s@]` characters, the `'@'`, then a domain
part of `[^\s@]` characters containing a dot with at least one character
on each side. -/
def emailTest (s : String) : Bool :=
  match s.toList.dropWhile (fun c => c != '@') with
  | [] => false
  | _ :: dom =>
      !(s.toList.takeWhile (fun c => c != '@')).isEmpty &&
      (s.toList.takeWhile (fun c => c != '@')).all emailCharOk &&
      dom.all emailCharOk &&
      hasInteriorDot dom

/-- The characters after the first `'@'` of `s` (the "domain part"). -/
def emailDomainPart (s : String) : List Char :=
  (s.toList.dropWhile (fun c => c != '@')).drop 1

/-! ### `collectFormData` (main.js lines 129-138)

`new FormData(form)` yields a list of `(name, value)` entries; the loop
`data[key] = value.trim()` builds a JS object in which a later entry with
the same key overwrites an earlier one.  The object is modelled as a
lookup function, `objSet` as property assignment. -/

/-- JS `value.trim()`: strip the characters of `WhiteSpace ∪
LineTerminator` (the same set as the regex class `\s`) from both ends. -/
def jsTrim (s : String) : String :=
  String.mk (((s.toList.dropWhile jsWhitespace).reverse.dropWhile jsWhitespace).reverse)

def objSet (m : String → Option String) (k v : String) : String → Option String :=
  fun k2 => if k2 == k then some v else m k2

def collectFormData (entries : List (String × String)) : String → Option String :=
  entries.foldl (fun m kv => objSet m kv.1 (jsTrim kv.2)) (fun _ => none)

/-- Value of the last entry named `k`, if any (JS object overwrite
semantics, expressed without a fold). -/
def lookupLast (entries : List (String × String)) (k : String) : Option String :=
  entries.reverse.lookup k

/-! ### `validateFormData` (main.js lines 141-163) -/

def requiredFields : List String :=
  ["firstName", "lastName", "email", "message", "privacy"]

/-- The loop over required fields returns `false` as soon as
`!data[field] || data[field] === ''` holds; then the email regex is
tested, then `data.privacy !== 'on'`.  (When the loop passes, `email` and
`privacy` are present, so reading them with default `""` is exact.) -/
def validateFormData (data : String → Option String) : Bool :=
  if requiredFields.any (fun f => jsFalsy (data f)) then false
  else if !emailTest ((data "email").getD "") then false
  else if (data "privacy").getD "" != "on" then false
  else true

/-! ### The request payload (main.js lines 169-179)

The object literal built inside `sendContactForm`.  The required fields
are taken from `data` directly (so in general they could be `undefined`,
i.e. `none`; after validation they are present), the optional fields go
through `|| ''`, the timestamp is `new Date().toISOString()` — modelled
as a string parameter generated at submission time — and `source` is a
constant. -/

structure Payload where
  firstName : Option String
  lastName : Option String
  email : Option String
  company : String
  phone : String
  service : String
  message : Option String
  timestamp : String
  source : String
  deriving Repr, DecidableEq

def buildPayload (data : String → Option String) (ts : String) : Payload :=
  { firstName := data "firstName"
    lastName := data "lastName"
    email := data "email"
    company := jsOrOpt (data "company") ""
    phone := jsOrOpt (data "phone") ""
    service := jsOrOpt (data "service") ""
    message := data "message"
    timestamp := ts
    source := "website_contact_form" }

/-! ### The network environment and the race (main.js lines 192-199)

`sendContactForm` races the `fetch` promise against a
`setTimeout`-backed rejection after `CONFIG.REQUEST_TIMEOUT` ms.  The
environment is a `FetchBehavior`: when (if ever) the fetch promise would
settle, and how.  The timeout promise wins the race exactly when the
fetch has not settled strictly before `REQUEST_TIMEOUT` elapses (at a
dead heat the timer, scheduled first, is taken to fire first). -/

/-- How `response.json()` turns out on a resolved response: a parsed
body whose `message` property is `some m` when it is the string `m`
(and `none` when absent), or a parse failure (the promise rejects with a
`SyntaxError` carrying `errMsg`). -/
inductive JsonOutcome where
  | parsed (msg : Option String)
  | parseError (errMsg : String)
  deriving Repr, DecidableEq

/-- How the `fetch` promise settles: resolved with an HTTP response
(status plus the behavior of `response.json()`), or rejected with an
error of the given name and message (a network / CORS failure is a
`TypeError` whose message mentions `fetch` in the major browsers). -/
inductive FetchSettle where
  | resolved (status : Nat) (body : JsonOutcome)
  | rejected (name : String) (msg : String)
  deriving Repr, DecidableEq

structure FetchBehavior where
  /-- Millisecond at which the fetch promise settles; `none` = never. -/
  settleAt : Option Nat
  /-- How it settles (meaningful only when `settleAt` is `some`). -/
  settle : FetchSettle
  deriving Repr, DecidableEq

inductive RaceResult where
  | fetched (s : FetchSettle)
  | timedOut
  deriving Repr, DecidableEq

/-- `await Promise.race([fetchPromise, timeoutPromise])`. -/
def race (fb : FetchBehavior) : RaceResult :=
  match fb.settleAt with
  | none => RaceResult.timedOut
  | some t => if t < REQUEST_TIMEOUT then RaceResult.fetched fb.settle else RaceResult.timedOut

/-- `response.ok` of the Fetch standard: status in the range 200-299. -/
def responseOk (status : Nat) : Bool :=
  200 ≤ status && status < 300

/-! ### `sendContactForm` (main.js lines 166-237) -/

/-- A JS error value, as far as the `catch` block inspects it. -/
structure JsError where
  name : String
  message : String
  deriving Repr, DecidableEq

/-- Messages of the `catch` block of `sendContactForm`
(main.js lines 219-235). -/
def networkErrorMessage : String :=
  "Unable to connect to the server. Please check your internet connection or try again later."

def timeoutMessage : String :=
  "Request timed out. Please try again."

def unexpectedErrorMessage : String :=
  "An unexpected error occurred. Please try again or contact us directly."

/-- The error classification of the `catch` block: a `TypeError` whose
message includes `'fetch'` is a network/CORS failure; the exact message
`'Request timeout'` is the raced timeout; everything else is unexpected. -/
def classifyError (e : JsError) : String :=
  if e.name == "TypeError" && jsIncludes e.message "fetch" then networkErrorMessage
  else if e.message == "Request timeout" then timeoutMessage
  else unexpectedErrorMessage

structure SendResult where
  success : Bool
  message : String
  deriving Repr, DecidableEq

def errorResult (e : JsError) : SendResult :=
  { success := false, message := classifyError e }

/-- The result of `sendContactForm` as a function of the environment.
Each branch mirrors the source: the timeout promise rejects with
`Error('Request timeout')`; a non-ok response throws
`` Error(`HTTP error! status: ...`) ``; a body that fails to parse as
JSON rejects with a `SyntaxError`; otherwise
`{success: true, message: result.message || 'Message sent successfully'}`. -/
def sendContactForm (fb : FetchBehavior) : SendResult :=
  match race fb with
  | RaceResult.timedOut =>
      errorResult { name := "Error", message := "Request timeout" }
  | RaceResult.fetched (FetchSettle.rejected n m) =>
      errorResult { name := n, message := m }
  | RaceResult.fetched (FetchSettle.resolved status body) =>
      if !responseOk status then
        errorResult { name := "Error", message := "HTTP error! status: " ++ toString status }
      else
        match body with
        | JsonOutcome.parseError em => errorResult { name := "SyntaxError", message := em }
        | JsonOutcome.parsed m =>
            { success := true, message := jsOrOpt m "Message sent successfully" }

/-! ### DOM side effects of one submission, as a trace

The submit handler (main.js lines 79-112) manipulates the submit button,
the message box and the form, and `sendContactForm` initiates exactly one
`fetch`.  One submission attempt is modelled as the list of these effects
in program order. -/

inductive MsgType where
  | success
  | error
  deriving Repr, DecidableEq

inductive Ev where
  /-- `setSubmitButtonState(loading)`. -/
  | setButton (loading : Bool)
  /-- `hideMessage()`. -/
  | hideMsg
  /-- the `fetch(...)` initiated inside `sendContactForm`, with the JSON
  payload it posts. -/
  | fetchCall (p : Payload)
  /-- `showMessage(text, type)`. -/
  | showMsg (text : String) (ty : MsgType)
  /-- `form.reset()`. -/
  | resetForm
  deriving Repr, DecidableEq

/-- `setSubmitButtonState` (main.js lines 116-126), as the button state it
establishes. -/
structure ButtonState where
  disabled : Bool
  label : String
  deriving Repr, DecidableEq

def setSubmitButtonState (loading : Bool) : ButtonState :=
  if loading then { disabled := true, label := "Sending..." }
  else { disabled := false, label := "Send Message" }

/-- The fetch initiation and the result of `sendContactForm`: the payload
is posted whenever the function runs (even if the timeout later wins the
race and the response is abandoned), the result is computed from the
environment. -/
def sendContactFormRun (data : String → Option String) (ts : String)
    (fb : FetchBehavior) : List Ev × SendResult :=
  ([Ev.fetchCall (buildPayload data ts)], sendContactForm fb)

def validationErrorMessage : String :=
  "Please fill in all required fields correctly."

def successBannerMessage : String :=
  "Thank you for your message! We\x27ll get back to you soon."

def handlerFallbackErrorMessage : String :=
  "There was an error sending your message. Please try again."

/-- The submit handler (main.js lines 79-112) on one submission:
disable the button and hide any message; collect and validate; on
validation failure show the generic error and return (through
`finally`); otherwise run `sendContactForm` and, on `success`, show the
fixed success banner and reset the form, else show
`response.message || ...` as an error; `finally` re-enables the button. -/
def handleSubmit (entries : List (String × String)) (ts : String)
    (fb : FetchBehavior) : List Ev :=
  [Ev.setButton true, Ev.hideMsg] ++
  (let data := collectFormData entries
   if !validateFormData data then
     [Ev.showMsg validationErrorMessage MsgType.error]
   else
     let run := sendContactFormRun data ts fb
     run.1 ++
     (if run.2.success then
        [Ev.showMsg successBannerMessage MsgType.success, Ev.resetForm]
      else
        [Ev.showMsg (jsOrStr run.2.message handlerFallbackErrorMessage) MsgType.error])) ++
  [Ev.setButton false]

/-! ### The message box (main.js lines 240-261) -/

structure MessageBox where
  hidden : Bool
  text : String
  className : String
  deriving Repr, DecidableEq

def messageClasses (ty : MsgType) : String :=
  match ty with
  | MsgType.success => "bg-green-100 border border-green-400 text-green-700 px-4 py-3 rounded"
  | MsgType.error => "bg-red-100 border border-red-400 text-red-700 px-4 py-3 rounded"

def hideMessage (m : MessageBox) : MessageBox :=
  { m with hidden := true }

/-- The auto-dismiss delay hard-coded in `showMessage` (main.js line 254). -/
def AUTO_DISMISS_MS : Nat := 5000

/-- `showMessage(message, type)`: the message box it displays, together
with the delay of the `setTimeout(hideMessage, 5000)` it schedules —
scheduled only for success banners. -/
def showMessage (msg : String) (ty : MsgType) : MessageBox × Option Nat :=
  ({ hidden := false, text := msg, className := messageClasses ty },
   match ty with
   | MsgType.success => some AUTO_DISMISS_MS
   | MsgType.error => none)

/-- The state of the message box `t` milliseconds after `showMessage`,
assuming no further submission: the scheduled hide (if any) has fired
once its delay has elapsed. -/
def messageBoxAt (r : MessageBox × Option Nat) (t : Nat) : MessageBox :=
  match r.2 with
  | some d => if d ≤ t then hideMessage r.1 else r.1
  | none => r.1

/-! ### Trace observations -/

/-- Payloads of the network calls in a trace, in order. -/
def fetchCalls (tr : List Ev) : List Payload :=
  tr.filterMap fun e =>
    match e with
    | Ev.fetchCall p => some p
    | _ => none

/-- Messages rendered in a trace, in order. -/
def shownMessages (tr : List Ev) : List (String × MsgType) :=
  tr.filterMap fun e =>
    match e with
    | Ev.showMsg t ty => some (t, ty)
    | _ => none

/-- The button state after the trace (from its last `setButton` event). -/
def finalButton (tr : List Ev) : Option ButtonState :=
  (tr.filterMap fun e =>
    match e with
    | Ev.setButton b => some b
    | _ => none).getLast?.map setSubmitButtonState

def isSetButton : Ev → Bool
  | Ev.setButton _ => true
  | _ => false

/-- The fetch promise has not settled by the time the timeout elapses:
either it never settles, or it settles no earlier than
`REQUEST_TIMEOUT` ms. -/
def fetchUnsettledAtTimeout (fb : FetchBehavior) : Prop :=
  ∀ t, fb.settleAt = some t → REQUEST_TIMEOUT ≤ t

/-- A concrete submission with every required field present and sound,
used to instantiate the theorems below. -/
def okEntries : List (String × String) :=
  [("firstName", " Ada "), ("lastName", "Lovelace"), ("email", "ada@example.com"),
   ("message", "hello"), ("privacy", "on")]

/-! ### Lemmas: `collectFormData` and `validateFormData` -/

/-- The fold of `collectFormData` realises JS object semantics: looking a
key up yields the trimmed value of the last form entry with that name. -/
theorem collectFormData_eq_lookupLast (entries : List (String × String)) (k : String) :
    collectFormData entries k = (lookupLast entries k).map jsTrim := by
  induction entries using List.reverseRecOn with
  | nil => rfl
  | append_singleton es e ih =>
      obtain ⟨a, b⟩ := e
      unfold collectFormData at ih ⊢
      rw [List.foldl_append]
      unfold lookupLast at ih ⊢
      rw [List.reverse_append]
      simp only [List.foldl_cons, List.foldl_nil, List.reverse_cons, List.reverse_nil,
        List.nil_append, List.singleton_append, List.lookup, objSet]
      cases h : (k == a) with
      | true => rfl
      | false => exact ih

theorem validateFormData_required {data : String → Option String}
    (hv : validateFormData data = true) :
    ∀ f ∈ requiredFields, jsFalsy (data f) = false := by
  intro f hf
  unfold validateFormData at hv
  split at hv
  · simp at hv
  · rename_i hany
    rw [Bool.not_eq_true] at hany
    by_contra hne
    rw [Bool.not_eq_false] at hne
    rw [List.any_eq_true.mpr ⟨f, hf, hne⟩] at hany
    simp at hany

theorem validateFormData_email {data : String → Option String}
    (hv : validateFormData data = true) :
    emailTest ((data "email").getD "") = true := by
  unfold validateFormData at hv
  split at hv
  · simp at hv
  · split at hv
    · simp at hv
    · rename_i hmail
      simpa using hmail

theorem validateFormData_privacy {data : String → Option String}
    (hv : validateFormData data = true) :
    data "privacy" = some "on" := by
  have hreq := validateFormData_required hv "privacy" (by simp [requiredFields])
  cases hd : data "privacy" with
  | none => rw [hd] at hreq; simp [jsFalsy] at hreq
  | some v =>
      unfold validateFormData at hv
      split at hv
      · simp at hv
      · split at hv
        · simp at hv
        · split at hv
          · simp at hv
          · rename_i hpriv
            rw [Bool.not_eq_true, bne_eq_false_iff_eq, hd] at hpriv
            simp only [Option.getD_some] at hpriv
            rw [hpriv]

/-- Validation failure as soon as some required field is missing or
empty. -/
theorem validateFormData_false_of_falsy {data : String → Option String}
    {f : String} (hf : f ∈ requiredFields) (hfalsy : jsFalsy (data f) = true) :
    validateFormData data = false := by
  by_contra h
  rw [Bool.not_eq_false] at h
  have := validateFormData_required h f hf
  rw [hfalsy] at this
  exact absurd this (by simp)

/-- Validation failure as soon as the collected email fails the regex. -/
theorem validateFormData_false_of_bad_email {data : String → Option String}
    {s : String} (he : data "email" = some s) (hbad : emailTest s = false) :
    validateFormData data = false := by
  by_contra h
  rw [Bool.not_eq_false] at h
  have := validateFormData_email h
  rw [he] at this
  simp only [Option.getD_some] at this
  rw [hbad] at this
  exact absurd this (by simp)

/-! ### Lemmas: the email regular expression -/

/-- The element at which `dropWhile` stops fails the predicate. -/
theorem dropWhile_head_not {α : Type} (p : α → Bool) (l : List α) (h0 : α) (t : List α)
    (h : l.dropWhile p = h0 :: t) : p h0 = false := by
  induction l with
  | nil => simp at h
  | cons c cs ih =>
      rw [List.dropWhile_cons] at h
      by_cases hc : p c = true
      · rw [if_pos hc] at h; exact ih h
      · rw [if_neg hc] at h
        injection h with h1 _
        rw [← h1]
        exact Bool.not_eq_true _ ▸ hc

theorem takeWhile_dropWhile_at_split (lp rest : List Char)
    (h : ∀ c ∈ lp, (c != '@') = true) :
    (lp ++ '@' :: rest).takeWhile (fun c => c != '@') = lp ∧
    (lp ++ '@' :: rest).dropWhile (fun c => c != '@') = '@' :: rest := by
  induction lp with
  | nil => constructor <;> simp
  | cons c t ih =>
      have hc : (c != '@') = true := h c (List.mem_cons_self c t)
      have ht : ∀ x ∈ t, (x != '@') = true := fun x hx => h x (List.mem_cons_of_mem c hx)
      obtain ⟨h1, h2⟩ := ih ht
      constructor
      · simp only [List.cons_append, List.takeWhile_cons, hc, if_true, h1]
      · simp only [List.cons_append, List.dropWhile_cons, hc, if_true, h2]

/-- What `emailRegex.test` accepts, exactly: a split
`local ++ "@" ++ a ++ "." ++ b` with all three parts non-empty and made
only of characters that are neither whitespace nor `'@'`. -/
theorem emailTest_eq_true_iff (s : String) :
    emailTest s = true ↔
      ∃ lp a b : List Char,
        s.toList = lp ++ '@' :: (a ++ '.' :: b) ∧
        lp ≠ [] ∧ a ≠ [] ∧ b ≠ [] ∧
        (∀ c ∈ lp, emailCharOk c = true) ∧
        (∀ c ∈ a, emailCharOk c = true) ∧
        (∀ c ∈ b, emailCharOk c = true) := by
  constructor
  · intro hv
    unfold emailTest at hv
    split at hv
    · simp at hv
    · rename_i h0 dom hdw
      have hph0 : (h0 != '@') = false :=
        dropWhile_head_not (fun c => c != '@') s.toList h0 dom hdw
      rw [bne_eq_false_iff_eq] at hph0
      subst hph0
      have hs := (List.takeWhile_append_dropWhile (fun c => c != '@') s.toList).symm
      rw [hdw] at hs
      simp only [Bool.and_eq_true] at hv
      obtain ⟨⟨⟨hne, hallLp⟩, hallDom⟩, hdot⟩ := hv
      rw [Bool.not_eq_true'] at hne
      have hlpne := List.isEmpty_eq_false.mp hne
      unfold hasInteriorDot at hdot
      rw [List.drop_one] at hdot
      have hdotmem : '.' ∈ dom.tail.dropLast := by
        simpa [List.contains, List.elem_iff] using hdot
      have htne : dom.tail ≠ [] := by
        intro hh
        rw [hh] at hdotmem
        simp at hdotmem
      have hdomne : dom ≠ [] := by
        intro hh; rw [hh] at htne; simp at htne
      obtain ⟨d0, dt, hdt⟩ := List.exists_cons_of_ne_nil hdomne
      subst hdt
      simp only [List.tail_cons] at hdotmem htne
      rcases List.eq_nil_or_concat dt with hc0 | ⟨dt0, l0, hdt0⟩
      · exact absurd hc0 htne
      rw [List.concat_eq_append] at hdt0
      subst hdt0
      rw [List.dropLast_concat] at hdotmem
      obtain ⟨x, y, hmid⟩ := List.append_of_mem hdotmem
      subst hmid
      have hmemdom := List.all_eq_true.mp hallDom
      refine ⟨s.toList.takeWhile (fun c => c != '@'), d0 :: x, y ++ [l0],
        ?_, hlpne, by simp, by simp, List.all_eq_true.mp hallLp, ?_, ?_⟩
      · refine hs.trans ?_
        congr 1
        simp [List.append_assoc]
      · intro c hc
        apply hmemdom
        simp only [List.mem_cons, List.mem_append] at hc ⊢
        tauto
      · intro c hc
        apply hmemdom
        simp only [List.mem_cons, List.mem_append] at hc ⊢
        tauto
  · rintro ⟨lp, a, b, hs, hlp, ha, hb, hclp, hca, hcb⟩
    have hlp' : ∀ c ∈ lp, (c != '@') = true := by
      intro c hc
      have h2 := hclp c hc
      simp only [emailCharOk, Bool.and_eq_true] at h2
      exact h2.2
    obtain ⟨htw, hdw⟩ := takeWhile_dropWhile_at_split lp (a ++ '.' :: b) hlp'
    unfold emailTest
    rw [hs]
    simp only [hdw, htw]
    simp only [Bool.and_eq_true]
    refine ⟨⟨⟨?_, ?_⟩, ?_⟩, ?_⟩
    · rw [Bool.not_eq_true', List.isEmpty_eq_false]
      exact hlp
    · exact List.all_eq_true.mpr hclp
    · refine List.all_eq_true.mpr fun c hc => ?_
      rcases List.mem_append.mp hc with hc1 | hc2
      · exact hca c hc1
      · rcases List.mem_cons.mp hc2 with hc3 | hc4
        · subst hc3; decide
        · exact hcb c hc4
    · obtain ⟨a0, a', haa⟩ := List.exists_cons_of_ne_nil ha
      subst haa
      unfold hasInteriorDot
      rw [List.drop_one, List.cons_append, List.tail_cons]
      have hstep1 : (a' ++ '.' :: b).dropLast = a' ++ ('.' :: b).dropLast :=
        List.dropLast_append_of_ne_nil a' (by simp)
      have hstep2 : ('.' :: b).dropLast = '.' :: b.dropLast := by
        have := @List.dropLast_append_of_ne_nil _ b ['.'] hb
        simpa using this
      rw [hstep1, hstep2]
      simp [List.contains, List.elem_iff]

/-- An email with no `'@'` never passes the regex. -/
theorem emailTest_false_of_no_at (s : String) (h : '@' ∉ s.toList) :
    emailTest s = false := by
  unfold emailTest
  have hnil : s.toList.dropWhile (fun c => c != '@') = [] :=
    List.dropWhile_eq_nil_iff.mpr fun x hx => bne_iff_ne.mpr fun he => h (he ▸ hx)
  simp only [hnil]

/-- An email whose domain part (everything after the first `'@'`) has no
dot never passes the regex. -/
theorem emailTest_false_of_no_dot (s : String) (h : '.' ∉ emailDomainPart s) :
    emailTest s = false := by
  unfold emailTest
  cases hdw : s.toList.dropWhile (fun c => c != '@') with
  | nil => rfl
  | cons h0 dom =>
      have hdom : emailDomainPart s = dom := by
        unfold emailDomainPart
        rw [hdw, List.drop_one, List.tail_cons]
      have hnd : hasInteriorDot dom = false := by
        unfold hasInteriorDot
        rw [Bool.eq_false_iff]
        intro hc
        have : '.' ∈ (dom.drop 1).dropLast := by
          simpa [List.contains, List.elem_iff] using hc
        exact h (hdom ▸ List.drop_subset 1 dom (List.dropLast_subset _ this))
      simp [hnd]

/-! ### Lemmas: `sendContactForm` -/

/-- The timeout promise wins the race whenever the fetch has not settled
strictly before `REQUEST_TIMEOUT` ms. -/
theorem race_timedOut {fb : FetchBehavior}
    (h : ∀ t, fb.settleAt = some t → REQUEST_TIMEOUT ≤ t) :
    race fb = RaceResult.timedOut := by
  unfold race
  cases hst : fb.settleAt with
  | none => rfl
  | some t =>
      have hle := h t hst
      show (if t < REQUEST_TIMEOUT then RaceResult.fetched fb.settle
        else RaceResult.timedOut) = RaceResult.timedOut
      rw [if_neg (by omega)]

theorem sendContactForm_timeout {fb : FetchBehavior}
    (h : race fb = RaceResult.timedOut) :
    sendContactForm fb = { success := false, message := timeoutMessage } := by
  unfold sendContactForm
  rw [h]
  decide

theorem sendContactForm_network {t : Nat} {msg : String}
    (ht : t < REQUEST_TIMEOUT) (hmsg : jsIncludes msg "fetch" = true) :
    sendContactForm ⟨some t, FetchSettle.rejected "TypeError" msg⟩
      = { success := false, message := networkErrorMessage } := by
  unfold sendContactForm race
  simp only
  rw [if_pos ht]
  simp [errorResult, classifyError, hmsg]

theorem sendContactForm_http_error {t status : Nat} {body : JsonOutcome}
    (ht : t < REQUEST_TIMEOUT) (hbad : responseOk status = false) :
    sendContactForm ⟨some t, FetchSettle.resolved status body⟩
      = { success := false, message := unexpectedErrorMessage } := by
  unfold sendContactForm race
  simp only
  rw [if_pos ht]
  have hname : (("Error" : String) == "TypeError") = false := by decide
  have h20 : ("HTTP error! status: " : String).length = 20 := by decide
  have h15 : ("Request timeout" : String).length = 15 := by decide
  have hne : ("HTTP error! status: " ++ toString status) ≠ "Request timeout" := by
    intro hh
    have := congrArg String.length hh
    rw [String.length_append, h20, h15] at this
    omega
  have hbeq : (("HTTP error! status: " ++ toString status) == "Request timeout") = false :=
    beq_eq_false_iff_ne.mpr hne
  simp [hbad, errorResult, classifyError, hname, hbeq]

theorem sendContactForm_parse_error {t status : Nat} {em : String}
    (ht : t < REQUEST_TIMEOUT) (hok : responseOk status = true)
    (hem : em ≠ "Request timeout") :
    sendContactForm ⟨some t, FetchSettle.resolved status (JsonOutcome.parseError em)⟩
      = { success := false, message := unexpectedErrorMessage } := by
  unfold sendContactForm race
  simp only
  rw [if_pos ht]
  have hname : (("SyntaxError" : String) == "TypeError") = false := by decide
  have hbeq : ((em : String) == "Request timeout") = false := beq_eq_false_iff_ne.mpr hem
  simp [hok, errorResult, classifyError, hname, hbeq]

theorem sendContactForm_success {t status : Nat} {m : Option String}
    (ht : t < REQUEST_TIMEOUT) (hok : responseOk status = true) :
    sendContactForm ⟨some t, FetchSettle.resolved status (JsonOutcome.parsed m)⟩
      = { success := true, message := jsOrOpt m "Message sent successfully" } := by
  unfold sendContactForm race
  simp only
  rw [if_pos ht]
  simp [hok]

/-! ### Lemmas: the submit handler's branches -/

theorem handleSubmit_invalid {entries : List (String × String)} {ts : String}
    {fb : FetchBehavior}
    (h : validateFormData (collectFormData entries) = false) :
    handleSubmit entries ts fb =
      [Ev.setButton true, Ev.hideMsg,
       Ev.showMsg validationErrorMessage MsgType.error, Ev.setButton false] := by
  unfold handleSubmit
  simp [h]

theorem handleSubmit_valid_success {entries : List (String × String)} {ts : String}
    {fb : FetchBehavior}
    (h : validateFormData (collectFormData entries) = true)
    (hs : (sendContactForm fb).success = true) :
    handleSubmit entries ts fb =
      [Ev.setButton true, Ev.hideMsg,
       Ev.fetchCall (buildPayload (collectFormData entries) ts),
       Ev.showMsg successBannerMessage MsgType.success, Ev.resetForm,
       Ev.setButton false] := by
  unfold handleSubmit sendContactFormRun
  simp [h, hs]

theorem handleSubmit_valid_failure {entries : List (String × String)} {ts : String}
    {fb : FetchBehavior}
    (h : validateFormData (collectFormData entries) = true)
    (hs : (sendContactForm fb).success = false) :
    handleSubmit entries ts fb =
      [Ev.setButton true, Ev.hideMsg,
       Ev.fetchCall (buildPayload (collectFormData entries) ts),
       Ev.showMsg (jsOrStr (sendContactForm fb).message handlerFallbackErrorMessage)
         MsgType.error,
       Ev.setButton false] := by
  unfold handleSubmit sendContactFormRun
  simp [h, hs]

/-- Validation failure when the privacy value is anything but `"on"`. -/
theorem validateFormData_false_of_privacy {data : String → Option String}
    {v : String} (hp : data "privacy" = some v) (hne : v ≠ "on") :
    validateFormData data = false := by
  by_contra h
  rw [Bool.not_eq_false] at h
  have := validateFormData_privacy h
  rw [hp] at this
  exact hne (by injection this)

/-! ### Claim theorems -/

/-- C1: whenever any of the required fields `firstName`, `lastName`,
`email`, `message` or `privacy` of the collected form-data map is missing
or empty, the submit handler fails validation, shows the single generic
"fill in all required fields" error, and performs no network call. -/
theorem missing_required_field_blocks_submission
    (entries : List (String × String)) (ts : String) (fb : FetchBehavior)
    (f : String) (hf : f ∈ requiredFields)
    (hmiss : jsFalsy (collectFormData entries f) = true) :
    validateFormData (collectFormData entries) = false ∧
    shownMessages (handleSubmit entries ts fb)
      = [(validationErrorMessage, MsgType.error)] ∧
    fetchCalls (handleSubmit entries ts fb) = [] := by
  have hv := validateFormData_false_of_falsy hf hmiss
  refine ⟨hv, ?_, ?_⟩ <;> rw [handleSubmit_invalid hv] <;> rfl

theorem missing_required_field_blocks_submission_witness :
    validateFormData (collectFormData []) = false ∧
    shownMessages (handleSubmit [] "2024-01-01T00:00:00.000Z"
        ⟨none, FetchSettle.rejected "e" "m"⟩)
      = [(validationErrorMessage, MsgType.error)] ∧
    fetchCalls (handleSubmit [] "2024-01-01T00:00:00.000Z"
        ⟨none, FetchSettle.rejected "e" "m"⟩) = [] :=
  missing_required_field_blocks_submission [] "2024-01-01T00:00:00.000Z"
    ⟨none, FetchSettle.rejected "e" "m"⟩ "firstName" (by decide) (by decide)

/-- C4: an email without `'@'`, or whose domain part (everything after
the first `'@'`) has no dot, always fails validation; and the accepted
shape is exactly `local@domain.tld` — non-empty parts with no whitespace
and no further `'@'` anywhere. -/
theorem email_shape_requirements :
    (∀ (data : String → Option String) (s : String), data "email" = some s →
        '@' ∉ s.toList → validateFormData data = false) ∧
    (∀ (data : String → Option String) (s : String), data "email" = some s →
        '.' ∉ emailDomainPart s → validateFormData data = false) ∧
    (∀ s : String, emailTest s = true ↔
        ∃ lp a b : List Char,
          s.toList = lp ++ '@' :: (a ++ '.' :: b) ∧
          lp ≠ [] ∧ a ≠ [] ∧ b ≠ [] ∧
          (∀ c ∈ lp, emailCharOk c = true) ∧
          (∀ c ∈ a, emailCharOk c = true) ∧
          (∀ c ∈ b, emailCharOk c = true)) := by
  refine ⟨?_, ?_, emailTest_eq_true_iff⟩
  · intro data s he hat
    exact validateFormData_false_of_bad_email he (emailTest_false_of_no_at s hat)
  · intro data s he hdot
    exact validateFormData_false_of_bad_email he (emailTest_false_of_no_dot s hdot)

theorem email_shape_requirements_witness :
    validateFormData (collectFormData [("firstName", "A"), ("lastName", "B"),
      ("email", "ab.co"), ("message", "m"), ("privacy", "on")]) = false ∧
    validateFormData (collectFormData [("firstName", "A"), ("lastName", "B"),
      ("email", "a@bco"), ("message", "m"), ("privacy", "on")]) = false ∧
    emailTest "ada@example.com" = true := by
  refine ⟨?_, ?_, ?_⟩
  · exact email_shape_requirements.1 _ "ab.co" (by decide) (by decide)
  · exact email_shape_requirements.2.1 _ "a@bco" (by decide) (by decide)
  · exact (email_shape_requirements.2.2 "ada@example.com").mpr
      ⟨['a', 'd', 'a'], ['e', 'x', 'a', 'm', 'p', 'l', 'e'], ['c', 'o', 'm'],
       by decide, by decide, by decide, by decide, by decide, by decide, by decide⟩

/-- C10: the privacy flag passes validation only when its collected
(trimmed) value is exactly the string `"on"`; any other non-empty value
fails validation and no network call is made. -/
theorem privacy_flag_must_equal_on
    (entries : List (String × String)) (ts : String) (fb : FetchBehavior)
    (v : String) (hp : collectFormData entries "privacy" = some v)
    (_hne : v ≠ "") (hnon : v ≠ "on") :
    validateFormData (collectFormData entries) = false ∧
    fetchCalls (handleSubmit entries ts fb) = [] ∧
    shownMessages (handleSubmit entries ts fb)
      = [(validationErrorMessage, MsgType.error)] := by
  have hv := validateFormData_false_of_privacy hp hnon
  refine ⟨hv, ?_, ?_⟩ <;> rw [handleSubmit_invalid hv] <;> rfl

theorem privacy_flag_must_equal_on_witness :
    validateFormData (collectFormData [("firstName", "A"), ("lastName", "B"),
      ("email", "a@b.co"), ("message", "m"), ("privacy", "yes")]) = false ∧
    fetchCalls (handleSubmit [("firstName", "A"), ("lastName", "B"),
      ("email", "a@b.co"), ("message", "m"), ("privacy", "yes")] "T"
      ⟨none, FetchSettle.rejected "e" "m"⟩) = [] ∧
    shownMessages (handleSubmit [("firstName", "A"), ("lastName", "B"),
      ("email", "a@b.co"), ("message", "m"), ("privacy", "yes")] "T"
      ⟨none, FetchSettle.rejected "e" "m"⟩)
      = [(validationErrorMessage, MsgType.error)] :=
  privacy_flag_must_equal_on _ "T" ⟨none, FetchSettle.rejected "e" "m"⟩
    "yes" (by decide) (by decide) (by decide)

/-- C5: a submission that passes validation posts exactly one request,
whose JSON payload consists of exactly the whitespace-trimmed required
fields, the optional fields `company`, `phone`, `service` defaulting to
`""` when missing, the timestamp generated at submission time, and the
constant source tag `"website_contact_form"`. -/
theorem payload_exact_contents
    (entries : List (String × String)) (ts : String) (fb : FetchBehavior)
    (hv : validateFormData (collectFormData entries) = true) :
    fetchCalls (handleSubmit entries ts fb)
      = [buildPayload (collectFormData entries) ts] ∧
    buildPayload (collectFormData entries) ts =
      { firstName := (lookupLast entries "firstName").map jsTrim
        lastName := (lookupLast entries "lastName").map jsTrim
        email := (lookupLast entries "email").map jsTrim
        company := jsOrOpt ((lookupLast entries "company").map jsTrim) ""
        phone := jsOrOpt ((lookupLast entries "phone").map jsTrim) ""
        service := jsOrOpt ((lookupLast entries "service").map jsTrim) ""
        message := (lookupLast entries "message").map jsTrim
        timestamp := ts
        source := "website_contact_form" } := by
  constructor
  · cases hs : (sendContactForm fb).success with
    | false => rw [handleSubmit_valid_failure hv hs]; rfl
    | true => rw [handleSubmit_valid_success hv hs]; rfl
  · unfold buildPayload
    simp only [collectFormData_eq_lookupLast]

theorem payload_exact_contents_witness :
    fetchCalls (handleSubmit okEntries "2024-05-05T10:00:00.000Z"
        ⟨some 5, FetchSettle.resolved 200 (JsonOutcome.parsed none)⟩)
      = [buildPayload (collectFormData okEntries) "2024-05-05T10:00:00.000Z"] ∧
    buildPayload (collectFormData okEntries) "2024-05-05T10:00:00.000Z" =
      { firstName := (lookupLast okEntries "firstName").map jsTrim
        lastName := (lookupLast okEntries "lastName").map jsTrim
        email := (lookupLast okEntries "email").map jsTrim
        company := jsOrOpt ((lookupLast okEntries "company").map jsTrim) ""
        phone := jsOrOpt ((lookupLast okEntries "phone").map jsTrim) ""
        service := jsOrOpt ((lookupLast okEntries "service").map jsTrim) ""
        message := (lookupLast okEntries "message").map jsTrim
        timestamp := "2024-05-05T10:00:00.000Z"
        source := "website_contact_form" } :=
  payload_exact_contents okEntries "2024-05-05T10:00:00.000Z"
    ⟨some 5, FetchSettle.resolved 200 (JsonOutcome.parsed none)⟩ (by decide)

/-- C2 counterexample: with the endpoint answering HTTP 200 and body
`{message: "ok"}`, the rendered success text is the fixed banner, which
is not `"ok"` — the claim that the rendered success text equals the
body's message is false on the code. -/
theorem success_text_ignores_body_message_cx :
    shownMessages (handleSubmit okEntries "2024-01-01T00:00:00.000Z"
        ⟨some 5, FetchSettle.resolved 200 (JsonOutcome.parsed (some "ok"))⟩)
      = [(successBannerMessage, MsgType.success)] ∧
    successBannerMessage ≠ "ok" := by decide

/-- C2 as amended: on a 2xx response with a parsed JSON body the handler
renders the fixed success banner (ignoring the body's message) and
resets the form; the body's `message` field only determines the
`message` of `sendContactForm`'s returned result, with the default
`"Message sent successfully"` when absent or empty. -/
theorem success_renders_fixed_banner_and_resets
    (entries : List (String × String)) (ts : String) (t status : Nat)
    (m : Option String)
    (hv : validateFormData (collectFormData entries) = true)
    (ht : t < REQUEST_TIMEOUT) (hok : responseOk status = true) :
    shownMessages (handleSubmit entries ts
        ⟨some t, FetchSettle.resolved status (JsonOutcome.parsed m)⟩)
      = [(successBannerMessage, MsgType.success)] ∧
    Ev.resetForm ∈ handleSubmit entries ts
        ⟨some t, FetchSettle.resolved status (JsonOutcome.parsed m)⟩ ∧
    (sendContactForm ⟨some t, FetchSettle.resolved status (JsonOutcome.parsed m)⟩).message
      = jsOrOpt m "Message sent successfully" := by
  have hsend := @sendContactForm_success t status m ht hok
  have hsucc : (sendContactForm
      ⟨some t, FetchSettle.resolved status (JsonOutcome.parsed m)⟩).success = true := by
    rw [hsend]
  refine ⟨?_, ?_, ?_⟩
  · rw [handleSubmit_valid_success hv hsucc]; rfl
  · rw [handleSubmit_valid_success hv hsucc]; simp
  · rw [hsend]

theorem success_renders_fixed_banner_and_resets_witness :
    shownMessages (handleSubmit okEntries "T"
        ⟨some 5, FetchSettle.resolved 200 (JsonOutcome.parsed (some "ok"))⟩)
      = [(successBannerMessage, MsgType.success)] ∧
    Ev.resetForm ∈ handleSubmit okEntries "T"
        ⟨some 5, FetchSettle.resolved 200 (JsonOutcome.parsed (some "ok"))⟩ ∧
    (sendContactForm ⟨some 5, FetchSettle.resolved 200
        (JsonOutcome.parsed (some "ok"))⟩).message
      = jsOrOpt (some "ok") "Message sent successfully" :=
  success_renders_fixed_banner_and_resets okEntries "T" 5 200 (some "ok")
    (by decide) (by decide) (by decide)

/-- C3 counterexample: two failing submissions of non-validation kinds
(timeout and network error) render different message strings, so the
non-validation failure kinds are not mapped to one common UI copy. -/
theorem nonvalidation_failures_differ_cx :
    fetchCalls (handleSubmit okEntries "T" ⟨none, FetchSettle.rejected "e" "m"⟩) ≠ [] ∧
    fetchCalls (handleSubmit okEntries "T"
        ⟨some 5, FetchSettle.rejected "TypeError" "Failed to fetch"⟩) ≠ [] ∧
    shownMessages (handleSubmit okEntries "T" ⟨none, FetchSettle.rejected "e" "m"⟩)
      = [(timeoutMessage, MsgType.error)] ∧
    shownMessages (handleSubmit okEntries "T"
        ⟨some 5, FetchSettle.rejected "TypeError" "Failed to fetch"⟩)
      = [(networkErrorMessage, MsgType.error)] ∧
    timeoutMessage ≠ networkErrorMessage := by decide

/-- C3 as amended: every failure maps to a user-visible message, the
message depends only on the failure kind, and all four kinds are
distinguished from one another in the UI copy — validation,
network-error (a `TypeError` mentioning `fetch`), timeout, and
server-error (non-2xx, or a success body whose parse error is not the
timeout sentinel) each render their own distinct string. -/
theorem failure_kinds_have_distinct_messages :
    (∀ (entries : List (String × String)) (ts : String) (fb : FetchBehavior),
        validateFormData (collectFormData entries) = false →
        shownMessages (handleSubmit entries ts fb)
          = [(validationErrorMessage, MsgType.error)]) ∧
    (∀ (entries : List (String × String)) (ts : String) (t : Nat) (msg : String),
        validateFormData (collectFormData entries) = true →
        t < REQUEST_TIMEOUT → jsIncludes msg "fetch" = true →
        shownMessages (handleSubmit entries ts
            ⟨some t, FetchSettle.rejected "TypeError" msg⟩)
          = [(networkErrorMessage, MsgType.error)]) ∧
    (∀ (entries : List (String × String)) (ts : String) (fb : FetchBehavior),
        validateFormData (collectFormData entries) = true →
        race fb = RaceResult.timedOut →
        shownMessages (handleSubmit entries ts fb)
          = [(timeoutMessage, MsgType.error)]) ∧
    (∀ (entries : List (String × String)) (ts : String) (t status : Nat)
        (body : JsonOutcome),
        validateFormData (collectFormData entries) = true →
        t < REQUEST_TIMEOUT → responseOk status = false →
        shownMessages (handleSubmit entries ts
            ⟨some t, FetchSettle.resolved status body⟩)
          = [(unexpectedErrorMessage, MsgType.error)]) ∧
    (∀ (entries : List (String × String)) (ts : String) (t status : Nat)
        (em : String),
        validateFormData (collectFormData entries) = true →
        t < REQUEST_TIMEOUT → responseOk status = true → em ≠ "Request timeout" →
        shownMessages (handleSubmit entries ts
            ⟨some t, FetchSettle.resolved status (JsonOutcome.parseError em)⟩)
          = [(unexpectedErrorMessage, MsgType.error)]) ∧
    (validationErrorMessage ≠ networkErrorMessage ∧
     validationErrorMessage ≠ timeoutMessage ∧
     validationErrorMessage ≠ unexpectedErrorMessage ∧
     networkErrorMessage ≠ timeoutMessage ∧
     networkErrorMessage ≠ unexpectedErrorMessage ∧
     timeoutMessage ≠ unexpectedErrorMessage) := by
  refine ⟨?_, ?_, ?_, ?_, ?_, by decide⟩
  · intro entries ts fb hv
    rw [handleSubmit_invalid hv]; rfl
  · intro entries ts t msg hv ht hmsg
    have hsend := sendContactForm_network ht hmsg
    have hfail : (sendContactForm
        ⟨some t, FetchSettle.rejected "TypeError" msg⟩).success = false := by rw [hsend]
    rw [handleSubmit_valid_failure hv hfail, hsend]; rfl
  · intro entries ts fb hv hrace
    have hsend := sendContactForm_timeout hrace
    have hfail : (sendContactForm fb).success = false := by rw [hsend]
    rw [handleSubmit_valid_failure hv hfail, hsend]; rfl
  · intro entries ts t status body hv ht hbad
    have hsend := @sendContactForm_http_error t status body ht hbad
    have hfail : (sendContactForm
        ⟨some t, FetchSettle.resolved status body⟩).success = false := by rw [hsend]
    rw [handleSubmit_valid_failure hv hfail, hsend]; rfl
  · intro entries ts t status em hv ht hok hem
    have hsend := sendContactForm_parse_error ht hok hem
    have hfail : (sendContactForm ⟨some t,
        FetchSettle.resolved status (JsonOutcome.parseError em)⟩).success = false := by
      rw [hsend]
    rw [handleSubmit_valid_failure hv hfail, hsend]; rfl

theorem failure_kinds_have_distinct_messages_witness :
    shownMessages (handleSubmit [] "T" ⟨none, FetchSettle.rejected "e" "m"⟩)
      = [(validationErrorMessage, MsgType.error)] ∧
    shownMessages (handleSubmit okEntries "T"
        ⟨some 5, FetchSettle.rejected "TypeError" "Failed to fetch"⟩)
      = [(networkErrorMessage, MsgType.error)] ∧
    shownMessages (handleSubmit okEntries "T" ⟨none, FetchSettle.rejected "e" "m"⟩)
      = [(timeoutMessage, MsgType.error)] ∧
    shownMessages (handleSubmit okEntries "T"
        ⟨some 5, FetchSettle.resolved 500 (JsonOutcome.parsed none)⟩)
      = [(unexpectedErrorMessage, MsgType.error)] ∧
    shownMessages (handleSubmit okEntries "T"
        ⟨some 5, FetchSettle.resolved 200 (JsonOutcome.parseError "Unexpected token")⟩)
      = [(unexpectedErrorMessage, MsgType.error)] :=
  ⟨failure_kinds_have_distinct_messages.1 [] "T" ⟨none, FetchSettle.rejected "e" "m"⟩
     (by decide),
   failure_kinds_have_distinct_messages.2.1 okEntries "T" 5 "Failed to fetch"
     (by decide) (by decide) (by decide),
   failure_kinds_have_distinct_messages.2.2.1 okEntries "T"
     ⟨none, FetchSettle.rejected "e" "m"⟩ (by decide) (by decide),
   failure_kinds_have_distinct_messages.2.2.2.1 okEntries "T" 5 500
     (JsonOutcome.parsed none) (by decide) (by decide) (by decide),
   failure_kinds_have_distinct_messages.2.2.2.2.1 okEntries "T" 5 200
     "Unexpected token" (by decide) (by decide) (by decide) (by decide)⟩

/-- C6: when the fetch has not settled by the time `REQUEST_TIMEOUT`
elapses, the attempt is a timeout failure: the request was initiated and
is merely abandoned (the outcome does not depend on how the fetch would
eventually settle — nothing cancels it), the rendered message is the
timeout-specific string, and the submit control ends up enabled with its
normal label. -/
theorem timeout_abandons_request
    (entries : List (String × String)) (ts : String) (fb : FetchBehavior)
    (hv : validateFormData (collectFormData entries) = true)
    (hun : fetchUnsettledAtTimeout fb) :
    shownMessages (handleSubmit entries ts fb) = [(timeoutMessage, MsgType.error)] ∧
    fetchCalls (handleSubmit entries ts fb)
      = [buildPayload (collectFormData entries) ts] ∧
    finalButton (handleSubmit entries ts fb)
      = some { disabled := false, label := "Send Message" } ∧
    (∀ s' : FetchSettle,
        handleSubmit entries ts { fb with settle := s' } = handleSubmit entries ts fb) := by
  have hrace := race_timedOut hun
  have hsend := sendContactForm_timeout hrace
  have hfail : (sendContactForm fb).success = false := by rw [hsend]
  refine ⟨?_, ?_, ?_, ?_⟩
  · rw [handleSubmit_valid_failure hv hfail, hsend]; rfl
  · rw [handleSubmit_valid_failure hv hfail]; rfl
  · rw [handleSubmit_valid_failure hv hfail]; rfl
  · intro s'
    have hrace' : race { fb with settle := s' } = RaceResult.timedOut :=
      race_timedOut fun t h => hun t h
    have hsend' := sendContactForm_timeout hrace'
    have hfail' : (sendContactForm { fb with settle := s' }).success = false := by
      rw [hsend']
    rw [handleSubmit_valid_failure hv hfail', handleSubmit_valid_failure hv hfail,
      hsend, hsend']

theorem timeout_abandons_request_witness :
    shownMessages (handleSubmit okEntries "T" ⟨none, FetchSettle.rejected "e" "m"⟩)
      = [(timeoutMessage, MsgType.error)] ∧
    fetchCalls (handleSubmit okEntries "T" ⟨none, FetchSettle.rejected "e" "m"⟩)
      = [buildPayload (collectFormData okEntries) "T"] ∧
    finalButton (handleSubmit okEntries "T" ⟨none, FetchSettle.rejected "e" "m"⟩)
      = some { disabled := false, label := "Send Message" } ∧
    (∀ s' : FetchSettle,
        handleSubmit okEntries "T"
            { FetchBehavior.mk none (FetchSettle.rejected "e" "m") with settle := s' }
          = handleSubmit okEntries "T" ⟨none, FetchSettle.rejected "e" "m"⟩) :=
  timeout_abandons_request okEntries "T" ⟨none, FetchSettle.rejected "e" "m"⟩
    (by decide) (fun t h => nomatch h)

/-- C7: a response with a non-2xx HTTP status (for instance 500) is
treated as a generic error — the rendered message is the generic
unexpected-error string and the form is not reset. -/
theorem http_error_shows_generic_and_keeps_form
    (entries : List (String × String)) (ts : String) (t status : Nat)
    (body : JsonOutcome)
    (hv : validateFormData (collectFormData entries) = true)
    (ht : t < REQUEST_TIMEOUT) (hbad : responseOk status = false) :
    shownMessages (handleSubmit entries ts ⟨some t, FetchSettle.resolved status body⟩)
      = [(unexpectedErrorMessage, MsgType.error)] ∧
    Ev.resetForm ∉ handleSubmit entries ts ⟨some t, FetchSettle.resolved status body⟩ := by
  have hsend := @sendContactForm_http_error t status body ht hbad
  have hfail : (sendContactForm
      ⟨some t, FetchSettle.resolved status body⟩).success = false := by rw [hsend]
  constructor
  · rw [handleSubmit_valid_failure hv hfail, hsend]; rfl
  · rw [handleSubmit_valid_failure hv hfail]
    simp

theorem http_error_shows_generic_and_keeps_form_witness :
    shownMessages (handleSubmit okEntries "T"
        ⟨some 5, FetchSettle.resolved 500 (JsonOutcome.parsed none)⟩)
      = [(unexpectedErrorMessage, MsgType.error)] ∧
    Ev.resetForm ∉ handleSubmit okEntries "T"
        ⟨some 5, FetchSettle.resolved 500 (JsonOutcome.parsed none)⟩ :=
  http_error_shows_generic_and_keeps_form okEntries "T" 5 500
    (JsonOutcome.parsed none) (by decide) (by decide) (by decide)

/-- C8: every submission attempt begins by disabling the submit control
with the progress label and hiding the old message, and ends —
unconditionally, whatever the outcome in between — by re-enabling it
with its normal label; no other button-state change happens while the
attempt is in flight. -/
theorem button_disabled_during_flight_reenabled_after
    (entries : List (String × String)) (ts : String) (fb : FetchBehavior) :
    (∃ mid, handleSubmit entries ts fb
        = Ev.setButton true :: Ev.hideMsg :: (mid ++ [Ev.setButton false]) ∧
      ∀ e ∈ mid, isSetButton e = false) ∧
    setSubmitButtonState true = { disabled := true, label := "Sending..." } ∧
    setSubmitButtonState false = { disabled := false, label := "Send Message" } := by
  refine ⟨?_, rfl, rfl⟩
  cases hval : validateFormData (collectFormData entries) with
  | false =>
      refine ⟨[Ev.showMsg validationErrorMessage MsgType.error], ?_, ?_⟩
      · rw [handleSubmit_invalid hval]; rfl
      · intro e he
        simp at he
        subst he
        rfl
  | true =>
      cases hs : (sendContactForm fb).success with
      | true =>
          refine ⟨[Ev.fetchCall (buildPayload (collectFormData entries) ts),
            Ev.showMsg successBannerMessage MsgType.success, Ev.resetForm], ?_, ?_⟩
          · rw [handleSubmit_valid_success hval hs]; rfl
          · intro e he
            simp at he
            rcases he with rfl | rfl | rfl <;> rfl
      | false =>
          refine ⟨[Ev.fetchCall (buildPayload (collectFormData entries) ts),
            Ev.showMsg (jsOrStr (sendContactForm fb).message handlerFallbackErrorMessage)
              MsgType.error], ?_, ?_⟩
          · rw [handleSubmit_valid_failure hval hs]; rfl
          · intro e he
            simp at he
            rcases he with rfl | rfl <;> rfl

theorem button_disabled_during_flight_reenabled_after_witness :
    (∃ mid, handleSubmit okEntries "T" ⟨none, FetchSettle.rejected "e" "m"⟩
        = Ev.setButton true :: Ev.hideMsg :: (mid ++ [Ev.setButton false]) ∧
      ∀ e ∈ mid, isSetButton e = false) ∧
    setSubmitButtonState true = { disabled := true, label := "Sending..." } ∧
    setSubmitButtonState false = { disabled := false, label := "Send Message" } :=
  button_disabled_during_flight_reenabled_after okEntries "T"
    ⟨none, FetchSettle.rejected "e" "m"⟩

/-- C9: success banners are auto-dismissed — hidden once the fixed
`AUTO_DISMISS_MS` delay has elapsed and visible before it — while error
banners are never auto-dismissed and stay visible until the next
submission attempt, whose first two effects are disabling the button
and hiding the current message. -/
theorem success_banner_auto_dismiss_error_persists :
    (∀ (msg : String) (t : Nat), AUTO_DISMISS_MS ≤ t →
        (messageBoxAt (showMessage msg MsgType.success) t).hidden = true) ∧
    (∀ (msg : String) (t : Nat), t < AUTO_DISMISS_MS →
        (messageBoxAt (showMessage msg MsgType.success) t).hidden = false) ∧
    (∀ (msg : String) (t : Nat),
        (messageBoxAt (showMessage msg MsgType.error) t).hidden = false) ∧
    (∀ (entries : List (String × String)) (ts : String) (fb : FetchBehavior),
        (handleSubmit entries ts fb).take 2 = [Ev.setButton true, Ev.hideMsg]) := by
  refine ⟨?_, ?_, ?_, ?_⟩
  · intro msg t h
    unfold messageBoxAt showMessage
    simp only
    rw [if_pos h]
    rfl
  · intro msg t h
    unfold messageBoxAt showMessage
    simp only
    rw [if_neg (by omega)]
  · intro msg t
    rfl
  · intro entries ts fb
    rfl

theorem success_banner_auto_dismiss_error_persists_witness :
    (messageBoxAt (showMessage "hello" MsgType.success) AUTO_DISMISS_MS).hidden = true ∧
    (messageBoxAt (showMessage "hello" MsgType.success) 0).hidden = false ∧
    (messageBoxAt (showMessage "hello" MsgType.error) AUTO_DISMISS_MS).hidden = false ∧
    (handleSubmit [] "T" ⟨none, FetchSettle.rejected "e" "m"⟩).take 2
      = [Ev.setButton true, Ev.hideMsg] :=
  ⟨success_banner_auto_dismiss_error_persists.1 "hello" AUTO_DISMISS_MS (le_refl _),
   success_banner_auto_dismiss_error_persists.2.1 "hello" 0 (by decide),
   success_banner_auto_dismiss_error_persists.2.2.1 "hello" AUTO_DISMISS_MS,
   success_banner_auto_dismiss_error_persists.2.2.2 [] "T"
     ⟨none, FetchSettle.rejected "e" "m"⟩⟩

end ModuWeb
